import Mathlib

/-!
Verification of the Asahi DRM UAPI protocol (src/include/uapi/drm/asahi_drm.h)
against its natural-language specification.

The header under src/ declares the protocol's constants, argument structures
and the render command-buffer layout.  The kernel-side behaviour (validation,
binding tables, queue scheduling) is not part of src/; where a claim concerns
that behaviour, the corresponding definition is modelled from the spec and its
doc comment says so.
-/

namespace AsahiDRM

/-! ## Constants from the header -/

def DRM_ASAHI_UNSTABLE_UABI_VERSION : Nat := 4

def DRM_ASAHI_GET_PARAM : Nat := 0x00
def DRM_ASAHI_VM_CREATE : Nat := 0x01
def DRM_ASAHI_VM_DESTROY : Nat := 0x02
def DRM_ASAHI_GEM_CREATE : Nat := 0x03
def DRM_ASAHI_GEM_MMAP_OFFSET : Nat := 0x04
def DRM_ASAHI_GEM_BIND : Nat := 0x05
def DRM_ASAHI_QUEUE_CREATE : Nat := 0x06
def DRM_ASAHI_QUEUE_DESTROY : Nat := 0x07
def DRM_ASAHI_SUBMIT : Nat := 0x08

/-- The nine ioctl opcodes, in the order the header lists them. -/
def asahi_opcodes : List Nat :=
  [DRM_ASAHI_GET_PARAM, DRM_ASAHI_VM_CREATE, DRM_ASAHI_VM_DESTROY,
   DRM_ASAHI_GEM_CREATE, DRM_ASAHI_GEM_MMAP_OFFSET, DRM_ASAHI_GEM_BIND,
   DRM_ASAHI_QUEUE_CREATE, DRM_ASAHI_QUEUE_DESTROY, DRM_ASAHI_SUBMIT]

/-- enum drm_asahi_param, values assigned consecutively from 0 by C rules. -/
def DRM_ASAHI_PARAM_UNSTABLE_UABI_VERSION : Nat := 0
def DRM_ASAHI_PARAM_GPU_GENERATION : Nat := 1
def DRM_ASAHI_PARAM_GPU_VARIANT : Nat := 2
def DRM_ASAHI_PARAM_GPU_REVISION : Nat := 3
def DRM_ASAHI_PARAM_CHIP_ID : Nat := 4
def DRM_ASAHI_PARAM_FEAT_COMPAT : Nat := 5
def DRM_ASAHI_PARAM_FEAT_INCOMPAT : Nat := 6
def DRM_ASAHI_PARAM_VM_PAGE_SIZE : Nat := 7
def DRM_ASAHI_PARAM_VM_USER_START : Nat := 8
def DRM_ASAHI_PARAM_VM_USER_END : Nat := 9
def DRM_ASAHI_PARAM_VM_SHADER_START : Nat := 10
def DRM_ASAHI_PARAM_VM_SHADER_END : Nat := 11

/-- The parameter ids of enum drm_asahi_param, in declaration order. -/
def asahi_param_ids : List Nat :=
  [DRM_ASAHI_PARAM_UNSTABLE_UABI_VERSION,
   DRM_ASAHI_PARAM_GPU_GENERATION, DRM_ASAHI_PARAM_GPU_VARIANT,
   DRM_ASAHI_PARAM_GPU_REVISION, DRM_ASAHI_PARAM_CHIP_ID,
   DRM_ASAHI_PARAM_FEAT_COMPAT, DRM_ASAHI_PARAM_FEAT_INCOMPAT,
   DRM_ASAHI_PARAM_VM_PAGE_SIZE,
   DRM_ASAHI_PARAM_VM_USER_START, DRM_ASAHI_PARAM_VM_USER_END,
   DRM_ASAHI_PARAM_VM_SHADER_START, DRM_ASAHI_PARAM_VM_SHADER_END]

def DRM_ASAHI_FEAT_MANDATORY_ZS_COMPRESSION : Nat := 1 <<< 0

def ASAHI_GEM_WRITEBACK : Nat := 1 <<< 0

def ASAHI_BIND_READ : Nat := 1 <<< 0
def ASAHI_BIND_WRITE : Nat := 1 <<< 1

/-- enum drm_asahi_queue_type. -/
def DRM_ASAHI_QUEUE_RENDER : Nat := 0
def DRM_ASAHI_QUEUE_COMPUTE : Nat := 1

/-- enum drm_asahi_cmd_type. -/
def DRM_ASAHI_CMD_RENDER : Nat := 0
def DRM_ASAHI_CMD_BLIT : Nat := 1
def DRM_ASAHI_CMD_COMPUTE : Nat := 2

def ASAHI_MAX_ATTACHMENTS : Nat := 16

def ASAHI_ATTACHMENT_C : Nat := 0
def ASAHI_ATTACHMENT_Z : Nat := 1
def ASAHI_ATTACHMENT_S : Nat := 2

def ASAHI_CMDBUF_NO_CLEAR_PIPELINE_TEXTURES : Nat := 1 <<< 0
def ASAHI_CMDBUF_SET_WHEN_RELOADING_Z_OR_S : Nat := 1 <<< 1
def ASAHI_CMDBUF_MEMORYLESS_RTS_USED : Nat := 1 <<< 2
def ASAHI_CMDBUF_PROCESS_EMPTY_TILES : Nat := 1 <<< 3

/-- The four ASAHI_CMDBUF_* control flag bits, in declaration order. -/
def asahi_cmdbuf_flag_bits : List Nat :=
  [ASAHI_CMDBUF_NO_CLEAR_PIPELINE_TEXTURES,
   ASAHI_CMDBUF_SET_WHEN_RELOADING_Z_OR_S,
   ASAHI_CMDBUF_MEMORYLESS_RTS_USED,
   ASAHI_CMDBUF_PROCESS_EMPTY_TILES]

/-! ## Declared struct layouts (field name, declared bit width) -/

/-- One declared C struct field: its name and its declared width in bits. -/
structure CField where
  fname : String
  bits : Nat
deriving DecidableEq, Repr

/-- Sum of the declared field widths of a struct, in bits. -/
def structBits (fs : List CField) : Nat := (fs.map CField.bits).sum

/-- struct drm_asahi_get_param. -/
def drm_asahi_get_param_fields : List CField :=
  [⟨"param", 32⟩, ⟨"pad", 32⟩, ⟨"value", 64⟩]

/-- struct drm_asahi_vm_create. -/
def drm_asahi_vm_create_fields : List CField :=
  [⟨"vm_id", 32⟩, ⟨"pad", 32⟩]

/-- struct drm_asahi_vm_destroy. -/
def drm_asahi_vm_destroy_fields : List CField :=
  [⟨"vm_id", 32⟩, ⟨"pad", 32⟩]

/-- struct drm_asahi_gem_create. -/
def drm_asahi_gem_create_fields : List CField :=
  [⟨"size", 64⟩, ⟨"flags", 32⟩, ⟨"handle", 32⟩]

/-- struct drm_asahi_gem_mmap_offset. -/
def drm_asahi_gem_mmap_offset_fields : List CField :=
  [⟨"handle", 32⟩, ⟨"flags", 32⟩, ⟨"offset", 64⟩]

/-- struct drm_asahi_gem_bind. -/
def drm_asahi_gem_bind_fields : List CField :=
  [⟨"handle", 32⟩, ⟨"vm_id", 32⟩, ⟨"offset", 64⟩, ⟨"range", 64⟩,
   ⟨"addr", 64⟩, ⟨"flags", 32⟩]

/-- struct drm_asahi_queue_create. -/
def drm_asahi_queue_create_fields : List CField :=
  [⟨"vm_id", 32⟩, ⟨"queue_type", 32⟩, ⟨"priority", 32⟩, ⟨"flags", 32⟩,
   ⟨"queue_id", 32⟩]

/-- struct drm_asahi_queue_destroy. -/
def drm_asahi_queue_destroy_fields : List CField :=
  [⟨"queue_id", 32⟩]

/-- struct drm_asahi_submit. -/
def drm_asahi_submit_fields : List CField :=
  [⟨"queue_id", 32⟩, ⟨"cmd_type", 32⟩, ⟨"cmd_buffer", 64⟩, ⟨"flags", 32⟩,
   ⟨"in_sync_count", 32⟩, ⟨"in_syncs", 64⟩, ⟨"out_sync", 32⟩]

/-- struct drm_asahi_attachment. -/
def drm_asahi_attachment_fields : List CField :=
  [⟨"type", 32⟩, ⟨"size", 32⟩, ⟨"pointer", 64⟩]

/-- struct drm_asahi_cmd_render, fields in declaration order.  The embedded
attachments array is 16 entries of struct drm_asahi_attachment (128 bits
each). -/
def drm_asahi_cmd_render_fields : List CField :=
  [⟨"flags", 64⟩, ⟨"encoder_ptr", 64⟩,
   ⟨"depth_buffer_1", 64⟩, ⟨"depth_buffer_2", 64⟩, ⟨"depth_buffer_3", 64⟩,
   ⟨"depth_meta_buffer_1", 64⟩, ⟨"depth_meta_buffer_2", 64⟩,
   ⟨"depth_meta_buffer_3", 64⟩,
   ⟨"stencil_buffer_1", 64⟩, ⟨"stencil_buffer_2", 64⟩,
   ⟨"stencil_buffer_3", 64⟩,
   ⟨"stencil_meta_buffer_1", 64⟩, ⟨"stencil_meta_buffer_2", 64⟩,
   ⟨"stencil_meta_buffer_3", 64⟩,
   ⟨"scissor_array", 64⟩, ⟨"depth_bias_array", 64⟩,
   ⟨"visibility_result_buffer", 64⟩,
   ⟨"zls_ctrl", 64⟩, ⟨"ppp_multisamplectl", 64⟩, ⟨"ppp_ctrl", 32⟩,
   ⟨"fb_width", 32⟩, ⟨"fb_height", 32⟩,
   ⟨"utile_width", 32⟩, ⟨"utile_height", 32⟩,
   ⟨"samples", 32⟩, ⟨"layers", 32⟩,
   ⟨"encoder_id", 32⟩, ⟨"cmd_ta_id", 32⟩, ⟨"cmd_3d_id", 32⟩,
   ⟨"iogpu_unk_49", 32⟩, ⟨"iogpu_unk_212", 32⟩, ⟨"iogpu_unk_214", 32⟩,
   ⟨"merge_upper_x", 32⟩, ⟨"merge_upper_y", 32⟩,
   ⟨"load_pipeline", 32⟩, ⟨"load_pipeline_bind", 32⟩,
   ⟨"store_pipeline", 32⟩, ⟨"store_pipeline_bind", 32⟩,
   ⟨"partial_reload_pipeline", 32⟩, ⟨"partial_reload_pipeline_bind", 32⟩,
   ⟨"partial_store_pipeline", 32⟩, ⟨"partial_store_pipeline_bind", 32⟩,
   ⟨"depth_dimensions", 32⟩, ⟨"isp_bgobjdepth", 32⟩, ⟨"isp_bgobjvals", 32⟩,
   ⟨"attachments", 16 * 128⟩, ⟨"attachment_count", 32⟩]

/-- The field names of a struct layout, in declaration order. -/
def fieldNames (fs : List CField) : List String := fs.map CField.fname

/-! ## Argument structures as records

The header's argument structs, with every machine integer embedded as `Nat`
(the claims settled here do not hinge on wrap-around).  Response fields that
the kernel fills in are omitted from call records where the model returns
them explicitly. -/

/-- struct drm_asahi_get_param (request part). -/
structure drm_asahi_get_param where
  param : Nat
  pad : Nat
deriving DecidableEq, Repr

/-- struct drm_asahi_vm_create (vm_id is a response field). -/
structure drm_asahi_vm_create where
  vm_id : Nat
  pad : Nat
deriving DecidableEq, Repr

/-- struct drm_asahi_vm_destroy. -/
structure drm_asahi_vm_destroy where
  vm_id : Nat
  pad : Nat
deriving DecidableEq, Repr

/-- struct drm_asahi_gem_bind. -/
structure drm_asahi_gem_bind where
  handle : Nat
  vm_id : Nat
  offset : Nat
  range : Nat
  addr : Nat
  flags : Nat
deriving DecidableEq, Repr

/-- struct drm_asahi_queue_create (queue_id is a response field). -/
structure drm_asahi_queue_create where
  vm_id : Nat
  queue_type : Nat
  priority : Nat
  flags : Nat
deriving DecidableEq, Repr

/-- struct drm_asahi_attachment. -/
structure drm_asahi_attachment where
  type : Nat
  size : Nat
  pointer : Nat
deriving DecidableEq, Repr

/-- struct drm_asahi_cmd_render.  The attachments array is embedded as a list;
`attachment_count` is the separate count field of the C struct. -/
structure drm_asahi_cmd_render where
  flags : Nat
  encoder_ptr : Nat
  depth_buffer_1 : Nat
  depth_buffer_2 : Nat
  depth_buffer_3 : Nat
  depth_meta_buffer_1 : Nat
  depth_meta_buffer_2 : Nat
  depth_meta_buffer_3 : Nat
  stencil_buffer_1 : Nat
  stencil_buffer_2 : Nat
  stencil_buffer_3 : Nat
  stencil_meta_buffer_1 : Nat
  stencil_meta_buffer_2 : Nat
  stencil_meta_buffer_3 : Nat
  scissor_array : Nat
  depth_bias_array : Nat
  visibility_result_buffer : Nat
  zls_ctrl : Nat
  ppp_multisamplectl : Nat
  ppp_ctrl : Nat
  fb_width : Nat
  fb_height : Nat
  utile_width : Nat
  utile_height : Nat
  samples : Nat
  layers : Nat
  encoder_id : Nat
  cmd_ta_id : Nat
  cmd_3d_id : Nat
  iogpu_unk_49 : Nat
  iogpu_unk_212 : Nat
  iogpu_unk_214 : Nat
  merge_upper_x : Nat
  merge_upper_y : Nat
  load_pipeline : Nat
  load_pipeline_bind : Nat
  store_pipeline : Nat
  store_pipeline_bind : Nat
  partial_reload_pipeline : Nat
  partial_reload_pipeline_bind : Nat
  partial_store_pipeline : Nat
  partial_store_pipeline_bind : Nat
  depth_dimensions : Nat
  isp_bgobjdepth : Nat
  isp_bgobjvals : Nat
  attachments : List drm_asahi_attachment
  attachment_count : Nat
deriving DecidableEq, Repr

/-! ## Kernel-side model

The kernel implementation is not under src/; the operations below are
modelled from the spec, against the header's constants. -/

/-- The spec's error taxonomy (§7). -/
inductive Err where
  | InvalidArgument
  | InvalidSize
  | OutOfBounds
  | AddressOutOfRange
  | RangeConflict
  | UnknownVm
  | UnknownQueue
  | UnknownHandle
  | InvalidPriority
  | CommandTypeMismatch
  | UnboundAddress
  | TooManyAttachments
  | VmInUse
  | QueueBusy
  | UnknownParameter
deriving DecidableEq, Repr

/-- Immutable device facts served by get_param (§3 DeviceParams). -/
structure DeviceParams where
  gpu_generation : Nat
  gpu_variant : Nat
  gpu_revision : Nat
  chip_id : Nat
  feat_compat : Nat
  feat_incompat : Nat
  vm_page_size : Nat
  vm_user_start : Nat
  vm_user_end : Nat
  vm_shader_start : Nat
  vm_shader_end : Nat
deriving DecidableEq, Repr

/-- One entry of a VM's Binding Table (§3 Binding): a mapped range of a
memory object inside one VM. -/
structure Binding where
  handle : Nat
  vm_id : Nat
  offset : Nat
  range : Nat
  addr : Nat
  flags : Nat
deriving DecidableEq, Repr

/-- Modelled from the spec: the process-wide protocol state (§3) — device
facts, the object table (handle, size), live VM ids and the Binding Tables
of all VMs (tagged by vm_id).  The kernel code holding this state is not
under src/. -/
structure ProtocolState where
  dev : DeviceParams
  objects : List (Nat × Nat)
  vms : List Nat
  bindings : List Binding
deriving DecidableEq, Repr

/-- Size of the memory object behind a handle, if the handle is live. -/
def lookupObject (s : ProtocolState) (h : Nat) : Option Nat :=
  (s.objects.find? (fun o => o.fst == h)).map Prod.snd

/-- Modelled from the spec: get_param (§4.1) — a pure read of device facts;
the id dispatch follows enum drm_asahi_param, unrecognized ids fail with
UnknownParameter.  The kernel handler is not under src/. -/
def getParam (dev : DeviceParams) (id : Nat) : Except Err Nat :=
  if id = DRM_ASAHI_PARAM_UNSTABLE_UABI_VERSION then
    .ok DRM_ASAHI_UNSTABLE_UABI_VERSION
  else if id = DRM_ASAHI_PARAM_GPU_GENERATION then .ok dev.gpu_generation
  else if id = DRM_ASAHI_PARAM_GPU_VARIANT then .ok dev.gpu_variant
  else if id = DRM_ASAHI_PARAM_GPU_REVISION then .ok dev.gpu_revision
  else if id = DRM_ASAHI_PARAM_CHIP_ID then .ok dev.chip_id
  else if id = DRM_ASAHI_PARAM_FEAT_COMPAT then .ok dev.feat_compat
  else if id = DRM_ASAHI_PARAM_FEAT_INCOMPAT then .ok dev.feat_incompat
  else if id = DRM_ASAHI_PARAM_VM_PAGE_SIZE then .ok dev.vm_page_size
  else if id = DRM_ASAHI_PARAM_VM_USER_START then .ok dev.vm_user_start
  else if id = DRM_ASAHI_PARAM_VM_USER_END then .ok dev.vm_user_end
  else if id = DRM_ASAHI_PARAM_VM_SHADER_START then .ok dev.vm_shader_start
  else if id = DRM_ASAHI_PARAM_VM_SHADER_END then .ok dev.vm_shader_end
  else .error .UnknownParameter

/-- Modelled from the spec: the GET_PARAM operation on the protocol state —
it answers from the immutable device facts and never mutates any state
(§4.1 "No side effects"). -/
def get_param_op (s : ProtocolState) (a : drm_asahi_get_param) :
    Except Err Nat × ProtocolState :=
  (getParam s.dev a.param, s)

/-- Whether a GPU address resolves to some binding of the table (its range
covers the address). -/
def resolves (tbl : List Binding) (p : Nat) : Bool :=
  tbl.any (fun b => decide (b.addr ≤ p) && decide (p < b.addr + b.range))

/-- Whether two bindings-to-be, given by base address and byte length, have
overlapping (nonempty) address ranges. -/
def rangesOverlap (addr1 range1 addr2 range2 : Nat) : Bool :=
  decide (addr1 < addr2 + range2) && decide (addr2 < addr1 + range1)

/-- Whether `addr .. addr+range` lies inside the VM's user region or its
shader region, as reported by the device facts (§4.4). -/
def inVmRegion (dev : DeviceParams) (addr range : Nat) : Bool :=
  (decide (dev.vm_user_start ≤ addr) &&
     decide (addr + range ≤ dev.vm_user_end)) ||
  (decide (dev.vm_shader_start ≤ addr) &&
     decide (addr + range ≤ dev.vm_shader_end))

/-- Modelled from the spec: the validation half of the GEM_BIND operation
(§4.4) — check the handle, the VM, the object bounds, the VM region and
range overlap, in the spec's order; `none` means every check passed.  The
kernel bind handler is not under src/. -/
def bind_check (s : ProtocolState) (a : drm_asahi_gem_bind) : Option Err :=
  match lookupObject s a.handle with
  | none => some .UnknownHandle
  | some size =>
    if ¬ s.vms.contains a.vm_id then some .UnknownVm
    else if size < a.offset + a.range then some .OutOfBounds
    else if ¬ inVmRegion s.dev a.addr a.range then some .AddressOutOfRange
    else if s.bindings.any (fun b =>
        b.vm_id == a.vm_id && rangesOverlap b.addr b.range a.addr a.range) then
      some .RangeConflict
    else none

/-- Modelled from the spec: the GEM_BIND operation (§4.4) — commit the new
binding only when validation passes; any failure returns the state
unchanged (§7: no partial effects).  The kernel bind handler is not under
src/. -/
def gem_bind (s : ProtocolState) (a : drm_asahi_gem_bind) :
    Option Err × ProtocolState :=
  match bind_check s a with
  | some e => (some e, s)
  | none =>
    (none,
     { s with bindings :=
         ⟨a.handle, a.vm_id, a.offset, a.range, a.addr, a.flags⟩ ::
           s.bindings })

/-- The GPU-address fields of a render command buffer that are subject to the
"every non-null pointer field must resolve to a binding" rule (§4.7): the
encoder pointer, the depth/stencil buffers and their metadata buffers, the
auxiliary arrays, the four phase pipelines and the pointers of the first
`attachment_count` attachments. -/
def renderPointers (c : drm_asahi_cmd_render) : List Nat :=
  [c.encoder_ptr,
   c.depth_buffer_1, c.depth_buffer_2, c.depth_buffer_3,
   c.depth_meta_buffer_1, c.depth_meta_buffer_2, c.depth_meta_buffer_3,
   c.stencil_buffer_1, c.stencil_buffer_2, c.stencil_buffer_3,
   c.stencil_meta_buffer_1, c.stencil_meta_buffer_2, c.stencil_meta_buffer_3,
   c.scissor_array, c.depth_bias_array, c.visibility_result_buffer,
   c.load_pipeline, c.store_pipeline,
   c.partial_reload_pipeline, c.partial_store_pipeline] ++
    ((c.attachments.take c.attachment_count).map drm_asahi_attachment.pointer)

/-- Modelled from the spec: render command-buffer validation (§4.7) —
`attachment_count` above ASAHI_MAX_ATTACHMENTS fails with
TooManyAttachments, then every non-null pointer field must resolve to a
binding of the submitting VM's table or the buffer fails with
UnboundAddress; `none` means accepted.  The kernel validator is not under
src/. -/
def validate_render (tbl : List Binding) (c : drm_asahi_cmd_render) :
    Option Err :=
  if ASAHI_MAX_ATTACHMENTS < c.attachment_count then some .TooManyAttachments
  else if (renderPointers c).all (fun p => p == 0 || resolves tbl p) then none
  else some .UnboundAddress

/-- Modelled from the spec: one submission queue's scheduler state (§4.6) —
the pending submissions in arrival order (head oldest) and the log of
executed submissions in execution order (head first). -/
structure QueueState where
  pending : List Nat
  log : List Nat
deriving DecidableEq, Repr

/-- Modelled from the spec: SUBMIT enqueues on the target queue (§4.6) — the
submission joins the tail of the pending list. -/
def submit_to_queue (q : QueueState) (s : Nat) : QueueState :=
  { q with pending := q.pending ++ [s] }

/-- Modelled from the spec: one dispatcher step (§4.6 FIFO order) — the
oldest pending submission executes and moves to the log; an idle queue is
unchanged. -/
def queue_step (q : QueueState) : QueueState :=
  match q.pending with
  | [] => q
  | s :: rest => ⟨rest, q.log ++ [s]⟩

/-- `k` dispatcher steps. -/
def queue_run (k : Nat) (q : QueueState) : QueueState :=
  match k with
  | 0 => q
  | k + 1 => queue_run k (queue_step q)

/-- Modelled from the spec: validity of the reserved fields of a QUEUE_CREATE
request — the header marks `flags` MBZ, so a request is well-formed exactly
when it is zero (§7 InvalidArgument). -/
def drm_asahi_queue_create.reservedOk (a : drm_asahi_queue_create) : Bool :=
  a.flags == 0

/-- Modelled from the spec: validity of the reserved field of a GET_PARAM
request — the header marks `pad` MBZ. -/
def drm_asahi_get_param.reservedOk (a : drm_asahi_get_param) : Bool :=
  a.pad == 0

/-- Modelled from the spec: validity of the reserved field of a VM_CREATE
request — the header marks `pad` MBZ. -/
def drm_asahi_vm_create.reservedOk (a : drm_asahi_vm_create) : Bool :=
  a.pad == 0

/-- Modelled from the spec: validity of the reserved field of a VM_DESTROY
request — the header marks `pad` MBZ. -/
def drm_asahi_vm_destroy.reservedOk (a : drm_asahi_vm_destroy) : Bool :=
  a.pad == 0

/-- Each ioctl opcode paired with its argument struct layout, mirroring the
DRM_IOCTL_ASAHI_* enum at the end of the header. -/
def asahi_op_arg_structs : List (Nat × List CField) :=
  [(DRM_ASAHI_GET_PARAM, drm_asahi_get_param_fields),
   (DRM_ASAHI_VM_CREATE, drm_asahi_vm_create_fields),
   (DRM_ASAHI_VM_DESTROY, drm_asahi_vm_destroy_fields),
   (DRM_ASAHI_GEM_CREATE, drm_asahi_gem_create_fields),
   (DRM_ASAHI_GEM_MMAP_OFFSET, drm_asahi_gem_mmap_offset_fields),
   (DRM_ASAHI_GEM_BIND, drm_asahi_gem_bind_fields),
   (DRM_ASAHI_QUEUE_CREATE, drm_asahi_queue_create_fields),
   (DRM_ASAHI_QUEUE_DESTROY, drm_asahi_queue_destroy_fields),
   (DRM_ASAHI_SUBMIT, drm_asahi_submit_fields)]

/-- Modelled from the spec: the §6 operation table's request and response
fields per opcode, in table order, spelled as the header spells them (the
table's "in-sync handles" is the header's `in_syncs` array). -/
def spec_op_table : List (Nat × List String) :=
  [(DRM_ASAHI_GET_PARAM, ["param", "value"]),
   (DRM_ASAHI_VM_CREATE, ["vm_id"]),
   (DRM_ASAHI_VM_DESTROY, ["vm_id"]),
   (DRM_ASAHI_GEM_CREATE, ["size", "flags", "handle"]),
   (DRM_ASAHI_GEM_MMAP_OFFSET, ["handle", "flags", "offset"]),
   (DRM_ASAHI_GEM_BIND,
    ["handle", "vm_id", "offset", "range", "addr", "flags"]),
   (DRM_ASAHI_QUEUE_CREATE,
    ["vm_id", "queue_type", "priority", "queue_id"]),
   (DRM_ASAHI_QUEUE_DESTROY, ["queue_id"]),
   (DRM_ASAHI_SUBMIT,
    ["queue_id", "cmd_type", "cmd_buffer", "flags", "in_syncs", "out_sync"])]

/-- The render descriptor fields that the header declares but §4.7 of the
spec does not enumerate. -/
def render_extra_fields : List String :=
  ["encoder_ptr", "encoder_id", "scissor_array", "depth_bias_array",
   "visibility_result_buffer", "zls_ctrl", "ppp_multisamplectl", "ppp_ctrl",
   "merge_upper_x", "merge_upper_y", "isp_bgobjdepth", "isp_bgobjvals",
   "iogpu_unk_49", "iogpu_unk_212", "iogpu_unk_214",
   "cmd_ta_id", "cmd_3d_id", "depth_dimensions"]

/-- Modelled from the spec: the render descriptor layout a reader would
reconstruct from the fields §4.7 enumerates alone — control flags, the
dimension fields, the four phase pipelines with their bind words, the
depth/stencil buffers and metadata buffers with their redundancy slots, and
the attachments array with its count. -/
def drm_asahi_cmd_render_spec_fields : List CField :=
  [⟨"flags", 64⟩,
   ⟨"depth_buffer_1", 64⟩, ⟨"depth_buffer_2", 64⟩, ⟨"depth_buffer_3", 64⟩,
   ⟨"depth_meta_buffer_1", 64⟩, ⟨"depth_meta_buffer_2", 64⟩,
   ⟨"depth_meta_buffer_3", 64⟩,
   ⟨"stencil_buffer_1", 64⟩, ⟨"stencil_buffer_2", 64⟩,
   ⟨"stencil_buffer_3", 64⟩,
   ⟨"stencil_meta_buffer_1", 64⟩, ⟨"stencil_meta_buffer_2", 64⟩,
   ⟨"stencil_meta_buffer_3", 64⟩,
   ⟨"fb_width", 32⟩, ⟨"fb_height", 32⟩,
   ⟨"utile_width", 32⟩, ⟨"utile_height", 32⟩,
   ⟨"samples", 32⟩, ⟨"layers", 32⟩,
   ⟨"load_pipeline", 32⟩, ⟨"load_pipeline_bind", 32⟩,
   ⟨"store_pipeline", 32⟩, ⟨"store_pipeline_bind", 32⟩,
   ⟨"partial_reload_pipeline", 32⟩, ⟨"partial_reload_pipeline_bind", 32⟩,
   ⟨"partial_store_pipeline", 32⟩, ⟨"partial_store_pipeline_bind", 32⟩,
   ⟨"attachments", 16 * 128⟩, ⟨"attachment_count", 32⟩]

/-! ## Helper lemmas -/

/-- Or-ing in one power-of-two bit leaves the test of a different bit
unchanged. -/
theorem or_pow_and_pow (f : Nat) (i j : Nat) (h : i ≠ j) :
    (f ||| 2 ^ i) &&& 2 ^ j = f &&& 2 ^ j := by
  apply Nat.eq_of_testBit_eq
  intro k
  simp only [Nat.testBit_land, Nat.testBit_lor]
  by_cases hk : j = k
  · subst hk
    rw [Nat.testBit_two_pow_of_ne h]
    simp
  · rw [Nat.testBit_two_pow_of_ne hk]
    simp

/-- Or-ing in a power-of-two bit makes the test of that bit read back the
bit. -/
theorem or_pow_and_pow_self (f i : Nat) : (f ||| 2 ^ i) &&& 2 ^ i = 2 ^ i := by
  apply Nat.eq_of_testBit_eq
  intro k
  simp only [Nat.testBit_land, Nat.testBit_lor]
  by_cases hk : i = k
  · subst hk
    simp
  · rw [Nat.testBit_two_pow_of_ne hk]
    simp

/-! ## Claims -/

/-- C1: the protocol's numeric constants are exactly queue types Render=0,
Compute=1; command types Render=0, Blit=1, Compute=2; attachment types
Color=0, Depth=1, Stencil=2; and the bind access flags Read and Write are
independent single bits (bit 0 and bit 1): for every flags word, setting one
of them neither disturbs the test of the other nor fails to make its own
test read back set. -/
theorem C1_numeric_constants :
    DRM_ASAHI_QUEUE_RENDER = 0 ∧ DRM_ASAHI_QUEUE_COMPUTE = 1 ∧
    DRM_ASAHI_CMD_RENDER = 0 ∧ DRM_ASAHI_CMD_BLIT = 1 ∧
    DRM_ASAHI_CMD_COMPUTE = 2 ∧
    ASAHI_ATTACHMENT_C = 0 ∧ ASAHI_ATTACHMENT_Z = 1 ∧
    ASAHI_ATTACHMENT_S = 2 ∧
    ASAHI_BIND_READ = 2 ^ 0 ∧ ASAHI_BIND_WRITE = 2 ^ 1 ∧
    ASAHI_BIND_READ &&& ASAHI_BIND_WRITE = 0 ∧
    ∀ f : Nat,
      (f ||| ASAHI_BIND_READ) &&& ASAHI_BIND_WRITE = f &&& ASAHI_BIND_WRITE ∧
      (f ||| ASAHI_BIND_WRITE) &&& ASAHI_BIND_READ = f &&& ASAHI_BIND_READ ∧
      (f ||| ASAHI_BIND_READ) &&& ASAHI_BIND_READ = ASAHI_BIND_READ ∧
      (f ||| ASAHI_BIND_WRITE) &&& ASAHI_BIND_WRITE = ASAHI_BIND_WRITE := by
  refine ⟨rfl, rfl, rfl, rfl, rfl, rfl, rfl, rfl, rfl, rfl, rfl, fun f => ?_⟩
  have h1 : ASAHI_BIND_READ = 2 ^ 0 := rfl
  have h2 : ASAHI_BIND_WRITE = 2 ^ 1 := rfl
  rw [h1, h2]
  exact ⟨or_pow_and_pow f 0 1 (by decide), or_pow_and_pow f 1 0 (by decide),
    or_pow_and_pow_self f 0, or_pow_and_pow_self f 1⟩

/-- C2: the transport defines exactly nine operations with consecutive
opcodes 0x00 through 0x08 in the spec's order, each paired with a fixed
argument struct, and per opcode the spec table's request/response fields
appear, in order, among the header struct's fields; GemBind's fields are
exactly the six the claim lists. -/
theorem C2_transport_operations :
    asahi_opcodes = List.range 9 ∧
    DRM_ASAHI_GET_PARAM = 0x00 ∧ DRM_ASAHI_VM_CREATE = 0x01 ∧
    DRM_ASAHI_VM_DESTROY = 0x02 ∧ DRM_ASAHI_GEM_CREATE = 0x03 ∧
    DRM_ASAHI_GEM_MMAP_OFFSET = 0x04 ∧ DRM_ASAHI_GEM_BIND = 0x05 ∧
    DRM_ASAHI_QUEUE_CREATE = 0x06 ∧ DRM_ASAHI_QUEUE_DESTROY = 0x07 ∧
    DRM_ASAHI_SUBMIT = 0x08 ∧
    asahi_op_arg_structs.map Prod.fst = asahi_opcodes ∧
    spec_op_table.map Prod.fst = asahi_opcodes ∧
    List.Forall₂
      (fun sp co => sp.snd.Sublist (fieldNames co.snd))
      spec_op_table asahi_op_arg_structs ∧
    fieldNames drm_asahi_gem_bind_fields =
      ["handle", "vm_id", "offset", "range", "addr", "flags"] ∧
    fieldNames drm_asahi_submit_fields =
      ["queue_id", "cmd_type", "cmd_buffer", "flags",
       "in_sync_count", "in_syncs", "out_sync"] := by
  decide

/-- C3: the render command buffer names the frame/tile dimension fields,
four phase pipelines each paired with one bind word, depth and stencil
buffer and metadata-buffer addresses with 3 redundancy slots each, and
exactly four independent control flag bits 1, 2, 4, 8. -/
theorem C3_render_descriptor_shape :
    (["fb_width", "fb_height", "utile_width", "utile_height",
      "samples", "layers",
      "load_pipeline", "load_pipeline_bind",
      "store_pipeline", "store_pipeline_bind",
      "partial_reload_pipeline", "partial_reload_pipeline_bind",
      "partial_store_pipeline", "partial_store_pipeline_bind",
      "depth_buffer_1", "depth_buffer_2", "depth_buffer_3",
      "depth_meta_buffer_1", "depth_meta_buffer_2", "depth_meta_buffer_3",
      "stencil_buffer_1", "stencil_buffer_2", "stencil_buffer_3",
      "stencil_meta_buffer_1", "stencil_meta_buffer_2",
      "stencil_meta_buffer_3"].all
        (fun n => (fieldNames drm_asahi_cmd_render_fields).contains n)) =
      true ∧
    ASAHI_CMDBUF_NO_CLEAR_PIPELINE_TEXTURES = 2 ^ 0 ∧
    ASAHI_CMDBUF_SET_WHEN_RELOADING_Z_OR_S = 2 ^ 1 ∧
    ASAHI_CMDBUF_MEMORYLESS_RTS_USED = 2 ^ 2 ∧
    ASAHI_CMDBUF_PROCESS_EMPTY_TILES = 2 ^ 3 ∧
    asahi_cmdbuf_flag_bits.length = 4 ∧
    asahi_cmdbuf_flag_bits.Pairwise (fun a b => a &&& b = 0) := by
  decide

/-- C5: the protocol exposes UnstableUabiVersion as a queryable parameter:
in this revision the version constant is 4, the version parameter id is the
first enumerated parameter, and get_param answers it with 4 on every
device. -/
theorem C5_unstable_uabi_version :
    DRM_ASAHI_UNSTABLE_UABI_VERSION = 4 ∧
    DRM_ASAHI_PARAM_UNSTABLE_UABI_VERSION = 0 ∧
    asahi_param_ids.head? = some DRM_ASAHI_PARAM_UNSTABLE_UABI_VERSION ∧
    ∀ dev : DeviceParams,
      getParam dev DRM_ASAHI_PARAM_UNSTABLE_UABI_VERSION =
        .ok DRM_ASAHI_UNSTABLE_UABI_VERSION :=
  ⟨rfl, rfl, rfl, fun _ => rfl⟩

/-- C9: beyond the fields the spec enumerates, the render descriptor carries
the encoder pointer and id, the scissor and depth-bias arrays, the
visibility-result buffer, the zls/ppp control words, the merge bounds, the
background-object depth/value words and the opaque hardware words; each is
declared in the header's layout, none in the spec-enumerated one, and the
two layouts disagree on the structure's total size. -/
theorem C9_render_descriptor_extra_fields :
    (render_extra_fields.all (fun n =>
      (fieldNames drm_asahi_cmd_render_fields).contains n &&
        !(fieldNames drm_asahi_cmd_render_spec_fields).contains n)) = true ∧
    structBits drm_asahi_cmd_render_spec_fields ≠
      structBits drm_asahi_cmd_render_fields := by
  decide

/-- C6: get_param takes an enumerated parameter id and returns a 64-bit
value (the struct's value field is 64 bits wide); the recognized ids are
exactly the twelve of enum drm_asahi_param — the UABI version, the GPU
identification, the two feature bitsets and the VM info — and every
unrecognized id fails with UnknownParameter, leaving the protocol state
untouched. -/
theorem C6_get_param_behaviour :
    (⟨"value", 64⟩ : CField) ∈ drm_asahi_get_param_fields ∧
    asahi_param_ids = List.range 12 ∧
    (∀ dev : DeviceParams,
      getParam dev DRM_ASAHI_PARAM_UNSTABLE_UABI_VERSION =
        .ok DRM_ASAHI_UNSTABLE_UABI_VERSION ∧
      getParam dev DRM_ASAHI_PARAM_GPU_GENERATION = .ok dev.gpu_generation ∧
      getParam dev DRM_ASAHI_PARAM_GPU_VARIANT = .ok dev.gpu_variant ∧
      getParam dev DRM_ASAHI_PARAM_GPU_REVISION = .ok dev.gpu_revision ∧
      getParam dev DRM_ASAHI_PARAM_CHIP_ID = .ok dev.chip_id ∧
      getParam dev DRM_ASAHI_PARAM_FEAT_COMPAT = .ok dev.feat_compat ∧
      getParam dev DRM_ASAHI_PARAM_FEAT_INCOMPAT = .ok dev.feat_incompat ∧
      getParam dev DRM_ASAHI_PARAM_VM_PAGE_SIZE = .ok dev.vm_page_size ∧
      getParam dev DRM_ASAHI_PARAM_VM_USER_START = .ok dev.vm_user_start ∧
      getParam dev DRM_ASAHI_PARAM_VM_USER_END = .ok dev.vm_user_end ∧
      getParam dev DRM_ASAHI_PARAM_VM_SHADER_START =
        .ok dev.vm_shader_start ∧
      getParam dev DRM_ASAHI_PARAM_VM_SHADER_END = .ok dev.vm_shader_end) ∧
    (∀ (dev : DeviceParams) (id : Nat),
      getParam dev id = .error Err.UnknownParameter ↔
        id ∉ asahi_param_ids) ∧
    (∀ (s : ProtocolState) (a : drm_asahi_get_param),
      a.param ∉ asahi_param_ids →
        get_param_op s a = (.error Err.UnknownParameter, s)) := by
  have hiff : ∀ (dev : DeviceParams) (id : Nat),
      getParam dev id = .error Err.UnknownParameter ↔
        id ∉ asahi_param_ids := by
    intro dev id
    rcases Nat.lt_or_ge id 12 with h | h
    · interval_cases id <;>
        simp [getParam, asahi_param_ids,
          DRM_ASAHI_PARAM_UNSTABLE_UABI_VERSION,
          DRM_ASAHI_PARAM_GPU_GENERATION, DRM_ASAHI_PARAM_GPU_VARIANT,
          DRM_ASAHI_PARAM_GPU_REVISION, DRM_ASAHI_PARAM_CHIP_ID,
          DRM_ASAHI_PARAM_FEAT_COMPAT, DRM_ASAHI_PARAM_FEAT_INCOMPAT,
          DRM_ASAHI_PARAM_VM_PAGE_SIZE, DRM_ASAHI_PARAM_VM_USER_START,
          DRM_ASAHI_PARAM_VM_USER_END, DRM_ASAHI_PARAM_VM_SHADER_START,
          DRM_ASAHI_PARAM_VM_SHADER_END]
    · have hni : id ∉ asahi_param_ids := by
        simp only [asahi_param_ids, List.mem_cons, List.not_mem_nil,
          or_false, DRM_ASAHI_PARAM_UNSTABLE_UABI_VERSION,
          DRM_ASAHI_PARAM_GPU_GENERATION, DRM_ASAHI_PARAM_GPU_VARIANT,
          DRM_ASAHI_PARAM_GPU_REVISION, DRM_ASAHI_PARAM_CHIP_ID,
          DRM_ASAHI_PARAM_FEAT_COMPAT, DRM_ASAHI_PARAM_FEAT_INCOMPAT,
          DRM_ASAHI_PARAM_VM_PAGE_SIZE, DRM_ASAHI_PARAM_VM_USER_START,
          DRM_ASAHI_PARAM_VM_USER_END, DRM_ASAHI_PARAM_VM_SHADER_START,
          DRM_ASAHI_PARAM_VM_SHADER_END]
        omega
      have hget : getParam dev id = .error .UnknownParameter := by
        have h0 : id ≠ DRM_ASAHI_PARAM_UNSTABLE_UABI_VERSION := by
          unfold DRM_ASAHI_PARAM_UNSTABLE_UABI_VERSION; omega
        have h1 : id ≠ DRM_ASAHI_PARAM_GPU_GENERATION := by
          unfold DRM_ASAHI_PARAM_GPU_GENERATION; omega
        have h2 : id ≠ DRM_ASAHI_PARAM_GPU_VARIANT := by
          unfold DRM_ASAHI_PARAM_GPU_VARIANT; omega
        have h3 : id ≠ DRM_ASAHI_PARAM_GPU_REVISION := by
          unfold DRM_ASAHI_PARAM_GPU_REVISION; omega
        have h4 : id ≠ DRM_ASAHI_PARAM_CHIP_ID := by
          unfold DRM_ASAHI_PARAM_CHIP_ID; omega
        have h5 : id ≠ DRM_ASAHI_PARAM_FEAT_COMPAT := by
          unfold DRM_ASAHI_PARAM_FEAT_COMPAT; omega
        have h6 : id ≠ DRM_ASAHI_PARAM_FEAT_INCOMPAT := by
          unfold DRM_ASAHI_PARAM_FEAT_INCOMPAT; omega
        have h7 : id ≠ DRM_ASAHI_PARAM_VM_PAGE_SIZE := by
          unfold DRM_ASAHI_PARAM_VM_PAGE_SIZE; omega
        have h8 : id ≠ DRM_ASAHI_PARAM_VM_USER_START := by
          unfold DRM_ASAHI_PARAM_VM_USER_START; omega
        have h9 : id ≠ DRM_ASAHI_PARAM_VM_USER_END := by
          unfold DRM_ASAHI_PARAM_VM_USER_END; omega
        have h10 : id ≠ DRM_ASAHI_PARAM_VM_SHADER_START := by
          unfold DRM_ASAHI_PARAM_VM_SHADER_START; omega
        have h11 : id ≠ DRM_ASAHI_PARAM_VM_SHADER_END := by
          unfold DRM_ASAHI_PARAM_VM_SHADER_END; omega
        unfold getParam
        rw [if_neg h0, if_neg h1, if_neg h2, if_neg h3, if_neg h4,
          if_neg h5, if_neg h6, if_neg h7, if_neg h8, if_neg h9,
          if_neg h10, if_neg h11]
      rw [hget]
      simp [hni]
  refine ⟨by decide, by decide, ?_, hiff, ?_⟩
  · intro dev
    exact ⟨rfl, rfl, rfl, rfl, rfl, rfl, rfl, rfl, rfl, rfl, rfl, rfl⟩
  · intro s a ha
    unfold get_param_op
    rw [(hiff s.dev a.param).mpr ha]

/-- C4: the maximum attachment count of a render command buffer is 16: for
every binding table and render command buffer, validation rejects any
attachment count above 16 (17 included) with TooManyAttachments, and accepts
a count of exactly 16 when every non-null pointer field resolves to a
binding of the submitting VM. -/
theorem C4_attachment_limit (tbl : List Binding) (c : drm_asahi_cmd_render) :
    ASAHI_MAX_ATTACHMENTS = 16 ∧
    (16 < c.attachment_count →
      validate_render tbl c = some Err.TooManyAttachments) ∧
    (c.attachment_count = 16 →
      ((renderPointers c).all (fun p => p == 0 || resolves tbl p)) = true →
      validate_render tbl c = none) := by
  refine ⟨rfl, ?_, ?_⟩
  · intro h
    have hlt : ASAHI_MAX_ATTACHMENTS < c.attachment_count := by
      unfold ASAHI_MAX_ATTACHMENTS; omega
    simp [validate_render, hlt]
  · intro hc hall
    have hn : ¬ ASAHI_MAX_ATTACHMENTS < c.attachment_count := by
      unfold ASAHI_MAX_ATTACHMENTS; omega
    simp [validate_render, hn, hall]

/-- The witnesses' device facts: user region 4096..1000000, shader region
2000000..3000000, 16 KiB pages. -/
def devW : DeviceParams :=
  ⟨13, 1, 2, 0x8103, 0, 1, 16384, 4096, 1000000, 2000000, 3000000⟩

/-- The witnesses' binding table: object 1 of VM 7 mapped read/write at
GPU addresses 4096..8192. -/
def tblW : List Binding := [⟨1, 7, 0, 4096, 4096, 3⟩]

/-- A render command buffer whose pointer fields are all null except the 16
attachments', which point into the witness binding. -/
def renderW : drm_asahi_cmd_render :=
  ⟨0, 0, 0, 0, 0, 0, 0, 0, 0, 0, 0, 0, 0, 0, 0, 0, 0, 0, 0, 0, 0, 0, 0, 0,
   0, 0, 0, 0, 0, 0, 0, 0, 0, 0, 0, 0, 0, 0, 0, 0, 0, 0, 0, 0, 0,
   List.replicate 16 ⟨ASAHI_ATTACHMENT_C, 4096, 4096⟩, 16⟩

theorem C4_attachment_limit_witness :
    validate_render tblW { renderW with attachment_count := 17 } =
      some Err.TooManyAttachments ∧
    validate_render tblW renderW = none :=
  ⟨(C4_attachment_limit tblW { renderW with attachment_count := 17 }).2.1
      (by decide),
   (C4_attachment_limit tblW renderW).2.2 rfl (by decide)⟩

/-- A successful bind commits exactly the requested binding at the head of
the VM's table and changes nothing else. -/
theorem gem_bind_success_state (s : ProtocolState) (a : drm_asahi_gem_bind)
    (h : (gem_bind s a).fst = none) :
    (gem_bind s a).snd =
      { s with bindings :=
          ⟨a.handle, a.vm_id, a.offset, a.range, a.addr, a.flags⟩ ::
            s.bindings } := by
  unfold gem_bind at h ⊢
  cases hc : bind_check s a with
  | none => rfl
  | some e => rw [hc] at h; simp at h

/-- A bind that passes the earlier checks but overlaps an existing binding
of the same VM fails the overlap check with RangeConflict. -/
theorem bind_check_conflict (s : ProtocolState) (a : drm_asahi_gem_bind)
    (sz : Nat) (hsz : lookupObject s a.handle = some sz)
    (hv : s.vms.contains a.vm_id = true)
    (hle : a.offset + a.range ≤ sz)
    (hreg : inVmRegion s.dev a.addr a.range = true)
    (hconf : (s.bindings.any (fun b =>
        b.vm_id == a.vm_id &&
          rangesOverlap b.addr b.range a.addr a.range)) = true) :
    bind_check s a = some Err.RangeConflict := by
  unfold bind_check
  have hlt : ¬ sz < a.offset + a.range := by omega
  have hv' : a.vm_id ∈ s.vms := by simpa using hv
  have hconf' : ∃ x ∈ s.bindings, x.vm_id = a.vm_id ∧
      rangesOverlap x.addr x.range a.addr a.range = true := by
    simpa using hconf
  simp [hsz, hv', hreg, hlt, hconf']

/-- A bind that passes the earlier checks but overlaps an existing binding
of the same VM fails with RangeConflict and changes nothing. -/
theorem gem_bind_conflict (s : ProtocolState) (a : drm_asahi_gem_bind)
    (sz : Nat) (hsz : lookupObject s a.handle = some sz)
    (hv : s.vms.contains a.vm_id = true)
    (hle : a.offset + a.range ≤ sz)
    (hreg : inVmRegion s.dev a.addr a.range = true)
    (hconf : (s.bindings.any (fun b =>
        b.vm_id == a.vm_id &&
          rangesOverlap b.addr b.range a.addr a.range)) = true) :
    gem_bind s a = (some Err.RangeConflict, s) := by
  unfold gem_bind
  rw [bind_check_conflict s a sz hsz hv hle hreg hconf]

/-- C7: binds are atomic and mutually exclusive on overlapping ranges —
whenever a first bind succeeds, a second bind to the same VM whose range
overlaps it and which passes the handle, bounds and region checks fails
with RangeConflict and leaves the state untouched; and every failed bind
leaves the state (its Binding Table included) completely unchanged. -/
theorem C7_bind_atomic_conflict :
    (∀ (s : ProtocolState) (a1 a2 : drm_asahi_gem_bind),
      a1.vm_id = a2.vm_id →
      rangesOverlap a1.addr a1.range a2.addr a2.range = true →
      (gem_bind s a1).fst = none →
      (∃ sz, lookupObject s a2.handle = some sz ∧
        a2.offset + a2.range ≤ sz) →
      s.vms.contains a2.vm_id = true →
      inVmRegion s.dev a2.addr a2.range = true →
      gem_bind ((gem_bind s a1).snd) a2 =
        (some Err.RangeConflict, (gem_bind s a1).snd)) ∧
    (∀ (s : ProtocolState) (a : drm_asahi_gem_bind) (e : Err),
      (gem_bind s a).fst = some e → (gem_bind s a).snd = s) := by
  constructor
  · intro s a1 a2 hvm hov h1 hobj hvml hreg
    obtain ⟨sz, hsz, hle⟩ := hobj
    rw [gem_bind_success_state s a1 h1]
    refine gem_bind_conflict _ _ sz hsz hvml hle hreg ?_
    simp [hvm, hov]
  · intro s a e h
    unfold gem_bind at h ⊢
    cases hc : bind_check s a with
    | none => rw [hc] at h; simp at h
    | some f => rfl

/-- The witnesses' protocol state: the device facts of devW, one 4096-byte
memory object with handle 1, one live VM with id 7 and an empty Binding
Table. -/
def sW : ProtocolState := ⟨devW, [(1, 4096)], [7], []⟩

/-- First bind of the C7 witness: object 1 into VM 7 at addresses
4096..8192, read access. -/
def a1W : drm_asahi_gem_bind := ⟨1, 7, 0, 4096, 4096, 1⟩

/-- Second bind of the C7 witness: object 1 into VM 7 at addresses
6000..10096, read/write access — overlapping the first bind. -/
def a2W : drm_asahi_gem_bind := ⟨1, 7, 0, 4096, 6000, 3⟩

theorem C7_bind_atomic_conflict_witness :
    gem_bind ((gem_bind sW a1W).snd) a2W =
      (some Err.RangeConflict, (gem_bind sW a1W).snd) :=
  C7_bind_atomic_conflict.1 sW a1W a2W rfl (by decide) (by decide)
    ⟨4096, by decide, by decide⟩ (by decide) (by decide)

/-- Running the dispatcher `k` steps executes exactly the first `k` pending
submissions, in order. -/
theorem queue_run_eq (k : Nat) (p l : List Nat) :
    queue_run k ⟨p, l⟩ = ⟨p.drop k, l ++ p.take k⟩ := by
  induction k generalizing p l with
  | zero => simp [queue_run]
  | succ k ih =>
    cases p with
    | nil =>
      show queue_run k (queue_step ⟨[], l⟩) = _
      simp [queue_step, ih]
    | cons x rest =>
      show queue_run k (queue_step ⟨x :: rest, l⟩) = _
      simp [queue_step, ih]

/-- If `B` shows up in a prefix of `P ++ [A, B]` although it is neither `A`
nor in `P`, the prefix is the whole list, so `A` comes before `B` in it. -/
theorem pair_sublist_take (A B : Nat) :
    ∀ (P : List Nat) (k : Nat), B ≠ A → B ∉ P →
      B ∈ (P ++ [A, B]).take k →
      [A, B].Sublist ((P ++ [A, B]).take k) := by
  intro P
  induction P with
  | nil =>
    intro k hBA _ hmem
    match k with
    | 0 => simp at hmem
    | 1 =>
      simp [List.take] at hmem
      exact absurd hmem hBA
    | n + 2 =>
      have htake : (([] : List Nat) ++ [A, B]).take (n + 2) = [A, B] := by
        simp [List.take]
      rw [htake] at hmem ⊢
  | cons p P ih =>
    intro k hBA hBP hmem
    match k with
    | 0 => simp at hmem
    | n + 1 =>
      have hne : B ≠ p := fun h => hBP (h ▸ List.mem_cons_self p P)
      rw [List.cons_append, List.take_succ_cons] at hmem ⊢
      rcases List.mem_cons.mp hmem with h | h
      · exact absurd h hne
      · exact (ih n hBA (fun hb => hBP (List.mem_cons_of_mem _ hb)) h).cons p

/-- C8: per-queue execution is strictly FIFO — submitting A and then B to a
queue (no sync dependency exists in the model) guarantees that however many
dispatcher steps run, once B appears in the execution log A appears in it
too, before B; B is never observable ahead of A. -/
theorem C8_queue_fifo (P : List Nat) (A B k : Nat) (hAB : A ≠ B)
    (hBP : B ∉ P)
    (hexec : B ∈ (queue_run k
        (submit_to_queue (submit_to_queue ⟨P, []⟩ A) B)).log) :
    [A, B].Sublist
      (queue_run k (submit_to_queue (submit_to_queue ⟨P, []⟩ A) B)).log := by
  have hq : submit_to_queue (submit_to_queue ⟨P, []⟩ A) B =
      (⟨P ++ [A, B], []⟩ : QueueState) := by
    simp [submit_to_queue]
  rw [hq, queue_run_eq] at hexec ⊢
  simp only [List.nil_append] at hexec ⊢
  exact pair_sublist_take A B P k (Ne.symm hAB) hBP hexec

theorem C8_queue_fifo_witness :
    [1, 2].Sublist
      (queue_run 2 (submit_to_queue (submit_to_queue ⟨[], []⟩ 1) 2)).log :=
  C8_queue_fifo [] 1 2 2 (by decide) (by decide) (by decide)

/-- C10: the argument structures carry reserved fields absent from the
spec's opcode table, all marked MBZ in the header: queue creation carries a
flags word besides vm id, queue type and priority, and the get_param,
vm_create and vm_destroy structures each carry a pad word; a non-zero value
in any of them makes the request invalid. -/
theorem C10_reserved_fields :
    (⟨"flags", 32⟩ : CField) ∈ drm_asahi_queue_create_fields ∧
    (⟨"pad", 32⟩ : CField) ∈ drm_asahi_get_param_fields ∧
    (⟨"pad", 32⟩ : CField) ∈ drm_asahi_vm_create_fields ∧
    (⟨"pad", 32⟩ : CField) ∈ drm_asahi_vm_destroy_fields ∧
    fieldNames drm_asahi_queue_create_fields =
      ["vm_id", "queue_type", "priority", "flags", "queue_id"] ∧
    ((spec_op_table.lookup DRM_ASAHI_QUEUE_CREATE).getD []).contains "flags"
      = false ∧
    ((spec_op_table.lookup DRM_ASAHI_GET_PARAM).getD []).contains "pad"
      = false ∧
    ((spec_op_table.lookup DRM_ASAHI_VM_CREATE).getD []).contains "pad"
      = false ∧
    ((spec_op_table.lookup DRM_ASAHI_VM_DESTROY).getD []).contains "pad"
      = false ∧
    (∀ a : drm_asahi_queue_create, a.flags ≠ 0 → a.reservedOk = false) ∧
    (∀ a : drm_asahi_get_param, a.pad ≠ 0 → a.reservedOk = false) ∧
    (∀ a : drm_asahi_vm_create, a.pad ≠ 0 → a.reservedOk = false) ∧
    (∀ a : drm_asahi_vm_destroy, a.pad ≠ 0 → a.reservedOk = false) := by
  refine ⟨by decide, by decide, by decide, by decide, by decide, by decide,
    by decide, by decide, by decide, ?_, ?_, ?_, ?_⟩
  · intro a h
    simpa [drm_asahi_queue_create.reservedOk] using h
  · intro a h
    simpa [drm_asahi_get_param.reservedOk] using h
  · intro a h
    simpa [drm_asahi_vm_create.reservedOk] using h
  · intro a h
    simpa [drm_asahi_vm_destroy.reservedOk] using h

theorem C10_reserved_fields_witness :
    (⟨0, 0, 0, 5⟩ : drm_asahi_queue_create).reservedOk = false ∧
    (⟨0, 5⟩ : drm_asahi_get_param).reservedOk = false ∧
    (⟨0, 5⟩ : drm_asahi_vm_create).reservedOk = false ∧
    (⟨0, 5⟩ : drm_asahi_vm_destroy).reservedOk = false :=
  ⟨C10_reserved_fields.2.2.2.2.2.2.2.2.2.1 ⟨0, 0, 0, 5⟩ (by decide),
   C10_reserved_fields.2.2.2.2.2.2.2.2.2.2.1 ⟨0, 5⟩ (by decide),
   C10_reserved_fields.2.2.2.2.2.2.2.2.2.2.2.1 ⟨0, 5⟩ (by decide),
   C10_reserved_fields.2.2.2.2.2.2.2.2.2.2.2.2 ⟨0, 5⟩ (by decide)⟩

end AsahiDRM
